import Mathlib

/-!
Formal model of the wallet backend in `server.js`: the ledger store state,
the Paystack deposit-webhook reconciler, the withdrawal orchestrator, the
VTpass webhook refund handler, and a two-task interleaving model for
concurrent deliveries of the same deposit webhook.

External collaborators (the HMAC primitive, JSON parsing of the raw body,
and the gateway HTTP calls) are passed in as function parameters; fallible
calls return `Option`/`Except`, where the error case models a thrown
exception. Money amounts are rationals, mirroring JavaScript numeric
division (`verifiedData.amount / 100`).
-/

/-- A transaction document in the `transactions` collection
(`{userId, amount, type, status, category}`; timestamps are not modelled). -/
structure Txn where
  userId : String
  amount : Rat
  type : String
  status : String
  category : String
deriving DecidableEq

/-- The ledger store: `users` maps a user id to its `balance` field,
`transactions` maps a document id (deposit reference / transfer id) to the
transaction document. Association lists model the two collections. -/
structure LedgerState where
  users : List (String × Rat)
  transactions : List (String × Txn)
deriving DecidableEq

/-- Document lookup by key in a collection (association list). -/
def lookup {α : Type} (l : List (String × α)) (k : String) : Option α :=
  match l with
  | [] => none
  | (k', v) :: rest => if k' = k then some v else lookup rest k

/-- Write a document at a key: overwrite when present, append when absent. -/
def setKey {α : Type} (l : List (String × α)) (k : String) (v : α) :
    List (String × α) :=
  match l with
  | [] => [(k, v)]
  | (k', v') :: rest =>
      if k' = k then (k, v) :: rest else (k', v') :: setKey rest k v

theorem lookup_setKey_self {α : Type} (l : List (String × α)) (k : String)
    (v : α) : lookup (setKey l k v) k = some v := by
  induction l with
  | nil => simp [lookup, setKey]
  | cons hd tl ih =>
      obtain ⟨k', v'⟩ := hd
      by_cases h : k' = k
      · simp [lookup, setKey, h]
      · simp [lookup, setKey, h, ih]

theorem lookup_setKey_ne {α : Type} (l : List (String × α)) (k k' : String)
    (v : α) (h : k' ≠ k) : lookup (setKey l k v) k' = lookup l k' := by
  induction l with
  | nil => simp [lookup, setKey, Ne.symm h]
  | cons hd tl ih =>
      obtain ⟨k0, v0⟩ := hd
      by_cases h0 : k0 = k
      · subst h0
        simp [lookup, setKey, Ne.symm h]
      · simp only [setKey, if_neg h0, lookup]
        by_cases h1 : k0 = k'
        · simp [h1]
        · simp [h1, ih]

/-- The event extracted from a parsed webhook body: `event.event` and
`event.data?.reference`. -/
structure WebhookEvent where
  event : String
  reference : String
deriving DecidableEq

/-- The authoritative record returned by the gateway's
`GET /transaction/verify/:reference` call: `vRes.data.data.status` and
`vRes.data.data.amount` (minor units). -/
structure VerifiedData where
  status : String
  amount : Rat
deriving DecidableEq

/-- Outcome of a webhook delivery: a response with an HTTP code and body, or
`crashed` for an exception that escapes the handler (no 200 is sent). -/
inductive WebhookOutcome where
  | ok (code : Nat) (msg : String)
  | crashed
deriving DecidableEq

/-- The body of the `db.runTransaction` in the deposit webhook: increment
the user's `balance` by `amt` and set the transaction's `status` to
`success`. Firestore's `t.update` throws on a missing document, aborting
the whole transaction, which `none` models: no write commits. -/
def depositCommit (s : LedgerState) (uid ref : String) (amt : Rat) :
    Option LedgerState :=
  match lookup s.users uid, lookup s.transactions ref with
  | some b, some txn =>
      some { users := setKey s.users uid (b + amt),
             transactions :=
               setKey s.transactions ref { txn with status := "success" } }
  | _, _ => none

/-- The `POST /api/paystack/webhook` handler. `hmacSha512 secret rawBody` is
the hex digest compared to the signature header; `parseJson` models
`JSON.parse` on the raw body (`none` = parse exception, which happens
outside the handler's try/catch and so escapes as `crashed`);
`verifyTransaction` models the gateway verify call (`Except.error` = the
axios call threw, caught by the handler's catch block). -/
def paystackWebhook
    (hmacSha512 : String → String → String)
    (parseJson : String → Option WebhookEvent)
    (verifyTransaction : String → Except Unit VerifiedData)
    (secret rawBody sigHeader : String)
    (s : LedgerState) : WebhookOutcome × LedgerState :=
  if hmacSha512 secret rawBody ≠ sigHeader then
    (WebhookOutcome.ok 200 "Invalid Signature", s)
  else
    match parseJson rawBody with
    | none => (WebhookOutcome.crashed, s)
    | some event =>
      if event.event = "charge.success" then
        match verifyTransaction event.reference with
        | Except.error _ => (WebhookOutcome.ok 200 "Webhook Received", s)
        | Except.ok verifiedData =>
          if verifiedData.status = "success" then
            let amountInNGN := verifiedData.amount / 100
            match lookup s.transactions event.reference with
            | none => (WebhookOutcome.ok 200 "Already processed", s)
            | some txn =>
              if txn.status = "success" then
                (WebhookOutcome.ok 200 "Already processed", s)
              else
                match depositCommit s txn.userId event.reference amountInNGN with
                | some s2 => (WebhookOutcome.ok 200 "Webhook Received", s2)
                | none => (WebhookOutcome.ok 200 "Webhook Received", s)
          else
            (WebhookOutcome.ok 200 "Webhook Received", s)
      else
        (WebhookOutcome.ok 200 "Webhook Received", s)

/-- The state after one webhook delivery (the handler's effect on the store). -/
def webhookStep
    (hmacSha512 : String → String → String)
    (parseJson : String → Option WebhookEvent)
    (verifyTransaction : String → Except Unit VerifiedData)
    (secret rawBody sigHeader : String)
    (s : LedgerState) : LedgerState :=
  (paystackWebhook hmacSha512 parseJson verifyTransaction
    secret rawBody sigHeader s).2

/-- Outcome of the `POST /api/paystack/transfer` handler: a 400 response
with `{error}` or a 200 response `{status: true, data}` carrying the
gateway's raw payout confirmation. -/
inductive TransferOutcome where
  | badRequest (error : String)
  | okTransfer (data : String)
deriving DecidableEq

/-- The `POST /api/paystack/transfer` handler. `transferCall koboAmount
recipient reference` models the axios payout call issued inside the
Firestore transaction with `amount * 100` (`Except.error msg` = the call
threw with that message). Firestore buffers `t.update`/`t.set` writes and
commits only when the transaction callback returns, so a thrown error
(missing user, insufficient balance, or the external call) commits no
write; every thrown error is answered with a 400 `{error}` response.
Request fields are `Option`s, and JavaScript falsiness of `""`/`0` is part
of the `!userId || !amount || !recipientCode` validation. -/
def paystackTransfer
    (transferCall : Rat → String → String → Except String String)
    (userId : Option String) (amount : Option Rat)
    (recipientCode : Option String) (transferId : String)
    (s : LedgerState) : TransferOutcome × LedgerState :=
  match userId, amount, recipientCode with
  | some uid, some amt, some rc =>
    if uid = "" ∨ amt = 0 ∨ rc = "" then
      (TransferOutcome.badRequest "Missing required fields", s)
    else
      match lookup s.users uid with
      | none => (TransferOutcome.badRequest "User not found", s)
      | some balance =>
        if balance < amt then
          (TransferOutcome.badRequest "Insufficient balance", s)
        else
          match transferCall (amt * 100) rc transferId with
          | Except.error e => (TransferOutcome.badRequest e, s)
          | Except.ok pData =>
            (TransferOutcome.okTransfer pData,
             { users := setKey s.users uid (balance - amt),
               transactions := setKey s.transactions transferId
                 { userId := uid, amount := amt, type := "debit",
                   status := "success", category := "Withdrawal" } })
  | _, _, _ => (TransferOutcome.badRequest "Missing required fields", s)

/-- The fields the `POST /api/vtpass/webhook` handler reads from its body:
`type`, `requestId` and `code`. -/
structure VtpassBody where
  type : String
  requestId : String
  code : String
deriving DecidableEq

/-- The `POST /api/vtpass/webhook` handler's effect on the store (the
handler answers 200 before this logic runs). On a `transaction-update`
whose transaction is not yet `success`: code `000` marks it `success`; any
code other than `099` refunds the transaction's `amount` to the user's
balance and marks the transaction `failed` (a missing user document makes
the refund `update` throw, which the catch block swallows before the
status write runs). -/
def vtpassWebhook (body : VtpassBody) (s : LedgerState) : LedgerState :=
  if body.type = "transaction-update" then
    match lookup s.transactions body.requestId with
    | none => s
    | some txn =>
      if txn.status ≠ "success" then
        if body.code = "000" then
          let txn2 := { txn with status := "success" }
          { s with transactions := setKey s.transactions body.requestId txn2 }
        else if body.code ≠ "099" then
          match lookup s.users txn.userId with
          | none => s
          | some b =>
            let txn2 := { txn with status := "failed" }
            { users := setKey s.users txn.userId (b + txn.amount),
              transactions := setKey s.transactions body.requestId txn2 }
        else s
      else s
  else s

/-!
Interleaving model for two concurrent deliveries of the same deposit
webhook. In the source, the idempotency check reads the transaction
snapshot with `txnRef.get()` outside `db.runTransaction`, and the
transaction body then performs the two blind updates with no re-read of
the status. Each delivery is therefore two atomic actions against the
store: (1) the snapshot read deciding whether to proceed (and capturing
`userId`), and (2) the atomic commit `depositCommit`. A schedule is a list
of booleans choosing which delivery acts next.
-/

/-- Per-delivery task state: `phase` 0 = snapshot not yet read, 1 = read
(with the gate decision `proceed` and the captured `uid`), 2 = finished. -/
structure DeliveryTask where
  phase : Nat
  proceed : Bool
  uid : String
deriving DecidableEq

/-- One atomic action of a delivery for reference `ref` crediting `amt`
major units: the snapshot read at phase 0, the transaction commit at
phase 1. -/
def stepTask (ref : String) (amt : Rat) (s : LedgerState)
    (d : DeliveryTask) : LedgerState × DeliveryTask :=
  if d.phase = 0 then
    match lookup s.transactions ref with
    | none => (s, ⟨1, false, ""⟩)
    | some txn => (s, ⟨1, txn.status ≠ "success", txn.userId⟩)
  else if d.phase = 1 then
    if d.proceed then
      match depositCommit s d.uid ref amt with
      | some s2 => (s2, ⟨2, d.proceed, d.uid⟩)
      | none => (s, ⟨2, d.proceed, d.uid⟩)
    else (s, ⟨2, d.proceed, d.uid⟩)
  else (s, d)

/-- Shared store plus the two in-flight deliveries. -/
structure ConcPair where
  shared : LedgerState
  d1 : DeliveryTask
  d2 : DeliveryTask
deriving DecidableEq

/-- Let one of the two deliveries (`true` = first) take its next atomic
action. -/
def stepPair (ref : String) (amt : Rat) (c : ConcPair) (which : Bool) :
    ConcPair :=
  if which then
    let r := stepTask ref amt c.shared c.d1
    { shared := r.1, d1 := r.2, d2 := c.d2 }
  else
    let r := stepTask ref amt c.shared c.d2
    { shared := r.1, d1 := c.d1, d2 := r.2 }

/-- Run a schedule of interleaved atomic actions. -/
def runSched (ref : String) (amt : Rat) (c : ConcPair) :
    List Bool → ConcPair
  | [] => c
  | w :: rest => runSched ref amt (stepPair ref amt c w) rest

/-- A delivery that has not acted yet. -/
def freshTask : DeliveryTask := ⟨0, false, ""⟩

/-!
Concrete fixtures used by scenario theorems and witnesses: a user with
balance 500 and a pending deposit transaction for reference `ref1`, an
HMAC primitive producing `goodsig`, a parse of the raw body yielding a
`charge.success` event for `ref1`, and a gateway verify call reporting a
successful charge of 10000 minor units.
-/

def cTxn : Txn :=
  { userId := "user1", amount := 100, type := "credit",
    status := "pending", category := "Deposit" }

def cState : LedgerState :=
  { users := [("user1", 500)], transactions := [("ref1", cTxn)] }

def cHmac : String → String → String := fun _ _ => "goodsig"

def cParse : String → Option WebhookEvent :=
  fun _ => some { event := "charge.success", reference := "ref1" }

def cVerify : String → Except Unit VerifiedData :=
  fun _ => Except.ok { status := "success", amount := 10000 }

def cVerifyFailed : String → Except Unit VerifiedData :=
  fun _ => Except.ok { status := "failed", amount := 10000 }

/-- Unfolding lemma: a validly signed `charge.success` webhook whose
authoritative verify reports `success`, whose transaction record exists
and is not yet `success`, and whose user document exists, credits
`amount / 100` and marks the transaction `success`. -/
theorem paystackWebhook_credit
    (hmac : String → String → String)
    (parse : String → Option WebhookEvent)
    (verify : String → Except Unit VerifiedData)
    (secret rawBody sig : String) (s : LedgerState)
    (ev : WebhookEvent) (vd : VerifiedData) (txn : Txn) (b : Rat)
    (hsig : hmac secret rawBody = sig)
    (hparse : parse rawBody = some ev)
    (hevent : ev.event = "charge.success")
    (hverify : verify ev.reference = Except.ok vd)
    (hstatus : vd.status = "success")
    (htxn : lookup s.transactions ev.reference = some txn)
    (hpending : txn.status ≠ "success")
    (huser : lookup s.users txn.userId = some b) :
    paystackWebhook hmac parse verify secret rawBody sig s =
      (WebhookOutcome.ok 200 "Webhook Received",
       { users := setKey s.users txn.userId (b + vd.amount / 100),
         transactions := setKey s.transactions ev.reference
           { txn with status := "success" } }) := by
  simp [paystackWebhook, depositCommit, hsig, hparse, hevent, hverify,
    hstatus, htxn, hpending, huser]

/-- Unfolding lemma: when no transaction record exists for the verified
reference, the handler answers 200 `Already processed` and mutates
nothing. -/
theorem paystackWebhook_no_record
    (hmac : String → String → String)
    (parse : String → Option WebhookEvent)
    (verify : String → Except Unit VerifiedData)
    (secret rawBody sig : String) (s : LedgerState)
    (ev : WebhookEvent) (vd : VerifiedData)
    (hsig : hmac secret rawBody = sig)
    (hparse : parse rawBody = some ev)
    (hevent : ev.event = "charge.success")
    (hverify : verify ev.reference = Except.ok vd)
    (hstatus : vd.status = "success")
    (hnone : lookup s.transactions ev.reference = none) :
    paystackWebhook hmac parse verify secret rawBody sig s =
      (WebhookOutcome.ok 200 "Already processed", s) := by
  simp [paystackWebhook, hsig, hparse, hevent, hverify, hstatus, hnone]

/-- Unfolding lemma: when the transaction record is already `success`,
the handler answers 200 `Already processed` and mutates nothing. -/
theorem paystackWebhook_already_done
    (hmac : String → String → String)
    (parse : String → Option WebhookEvent)
    (verify : String → Except Unit VerifiedData)
    (secret rawBody sig : String) (s : LedgerState)
    (ev : WebhookEvent) (vd : VerifiedData) (txn : Txn)
    (hsig : hmac secret rawBody = sig)
    (hparse : parse rawBody = some ev)
    (hevent : ev.event = "charge.success")
    (hverify : verify ev.reference = Except.ok vd)
    (hstatus : vd.status = "success")
    (htxn : lookup s.transactions ev.reference = some txn)
    (hdone : txn.status = "success") :
    paystackWebhook hmac parse verify secret rawBody sig s =
      (WebhookOutcome.ok 200 "Already processed", s) := by
  simp [paystackWebhook, hsig, hparse, hevent, hverify, hstatus, htxn, hdone]

/-- C3: a webhook whose signature header differs from the HMAC-SHA512 of
the exact raw body is answered 200 `Invalid Signature` with the store
untouched; the result is the same for every `parseJson` and
`verifyTransaction`, so the body is never parsed and no document is read
or written. -/
theorem webhook_invalid_signature_no_effect
    (hmac : String → String → String) (secret rawBody sig : String)
    (hbad : hmac secret rawBody ≠ sig)
    (parse : String → Option WebhookEvent)
    (verify : String → Except Unit VerifiedData) (s : LedgerState) :
    paystackWebhook hmac parse verify secret rawBody sig s =
      (WebhookOutcome.ok 200 "Invalid Signature", s) := by
  simp [paystackWebhook, hbad]

/-- Witness for C3 at a concrete forged signature. -/
theorem webhook_invalid_signature_no_effect_witness :
    paystackWebhook (fun _ _ => "forged") cParse cVerify
        "sec" "raw" "goodsig" cState =
      (WebhookOutcome.ok 200 "Invalid Signature", cState) :=
  webhook_invalid_signature_no_effect (fun _ _ => "forged")
    "sec" "raw" "goodsig" (by decide) cParse cVerify cState

/-- C4: a validly signed `charge.success` webhook whose authoritative
verify-by-reference call reports a status other than `success` takes no
ledger action: the handler answers 200 and returns the store unchanged,
regardless of the amount carried in the webhook body or the verified
record. -/
theorem webhook_reverify_gate_no_effect
    (hmac : String → String → String)
    (parse : String → Option WebhookEvent)
    (verify : String → Except Unit VerifiedData)
    (secret rawBody sig : String) (s : LedgerState)
    (ev : WebhookEvent) (vd : VerifiedData)
    (hsig : hmac secret rawBody = sig)
    (hparse : parse rawBody = some ev)
    (hevent : ev.event = "charge.success")
    (hverify : verify ev.reference = Except.ok vd)
    (hstatus : vd.status ≠ "success") :
    paystackWebhook hmac parse verify secret rawBody sig s =
      (WebhookOutcome.ok 200 "Webhook Received", s) := by
  simp [paystackWebhook, hsig, hparse, hevent, hverify, hstatus]

/-- Witness for C4: the verify call reports `failed` for a charge the
webhook claims succeeded; the store is unchanged. -/
theorem webhook_reverify_gate_no_effect_witness :
    paystackWebhook cHmac cParse cVerifyFailed
        "sec" "raw" "goodsig" cState =
      (WebhookOutcome.ok 200 "Webhook Received", cState) :=
  webhook_reverify_gate_no_effect cHmac cParse cVerifyFailed
    "sec" "raw" "goodsig" cState
    { event := "charge.success", reference := "ref1" }
    { status := "failed", amount := 10000 }
    rfl rfl rfl rfl (by decide)

/-- C8 counterexample: `JSON.parse(req.body.toString())` runs outside the
handler's try/catch, so a validly signed body that is not valid JSON
(here: every body, since the parse function models a parse failure)
raises an uncaught exception and no 200 response is produced — the
outcome is `crashed`, not `WebhookOutcome.ok 200 _`. -/
theorem webhook_crashes_on_signed_malformed_body :
    paystackWebhook (fun _ _ => "goodsig") (fun _ => none)
        (fun _ => Except.error ()) "sec" "not-json" "goodsig" cState =
      (WebhookOutcome.crashed, cState) := by
  simp [paystackWebhook]

/-- C8 (amended): the deposit webhook handler responds HTTP 200 for every
request whose signature check fails or whose raw body parses as JSON —
including when the gateway verify call throws or the ledger update fails.
Only a validly signed body that fails JSON parsing escapes as an uncaught
exception (no 200). -/
theorem webhook_always_200_unless_parse_throws
    (hmac : String → String → String)
    (parse : String → Option WebhookEvent)
    (verify : String → Except Unit VerifiedData)
    (secret rawBody sig : String) (s : LedgerState)
    (h : hmac secret rawBody ≠ sig ∨ (parse rawBody).isSome = true) :
    ∃ m, (paystackWebhook hmac parse verify secret rawBody sig s).1 =
      WebhookOutcome.ok 200 m := by
  by_cases hsig : hmac secret rawBody ≠ sig
  · exact ⟨"Invalid Signature", by simp [paystackWebhook, hsig]⟩
  · rcases h with h | h
    · exact absurd h hsig
    · rw [Option.isSome_iff_exists] at h
      obtain ⟨ev, hev⟩ := h
      simp only [paystackWebhook, hev, if_neg hsig]
      repeat' first
        | exact ⟨_, rfl⟩
        | split

/-- Witness for the amended C8: with a well-formed body the handler
answers 200 even though the gateway verify call throws. -/
theorem webhook_always_200_unless_parse_throws_witness :
    ∃ m, (paystackWebhook cHmac cParse (fun _ => Except.error ())
        "sec" "raw" "goodsig" cState).1 = WebhookOutcome.ok 200 m :=
  webhook_always_200_unless_parse_throws cHmac cParse
    (fun _ => Except.error ()) "sec" "raw" "goodsig" cState
    (Or.inr (by simp [cParse]))

/-- C2: when the external payout call throws, the Firestore transaction
commits neither the balance decrement nor the debit record: for every
request the post-state equals the pre-state and the caller receives a 400
`{error}` response. -/
theorem transfer_gateway_failure_no_commit
    (e : String) (userId : Option String) (amount : Option Rat)
    (recipientCode : Option String) (transferId : String)
    (s : LedgerState) :
    (paystackTransfer (fun _ _ _ => Except.error e)
        userId amount recipientCode transferId s).2 = s ∧
    ∃ msg, (paystackTransfer (fun _ _ _ => Except.error e)
        userId amount recipientCode transferId s).1 =
      TransferOutcome.badRequest msg := by
  unfold paystackTransfer
  repeat' first
    | exact ⟨rfl, _, rfl⟩
    | split

/-- C7: a withdrawal for an existing user whose balance is below the
requested amount is rejected inside the transaction with the descriptive
`Insufficient balance` error (a 400 response), and the store is
unchanged — no balance write, no transaction document. -/
theorem transfer_insufficient_balance_rejected
    (call : Rat → String → String → Except String String)
    (uid rc tid : String) (amt b : Rat) (s : LedgerState)
    (huid : uid ≠ "") (hrc : rc ≠ "") (hamt : amt ≠ 0)
    (hb : lookup s.users uid = some b) (hlt : b < amt) :
    paystackTransfer call (some uid) (some amt) (some rc) tid s =
      (TransferOutcome.badRequest "Insufficient balance", s) := by
  simp [paystackTransfer, huid, hrc, hamt, hb, hlt]

def cPoorState : LedgerState :=
  { users := [("user7", 100)], transactions := [] }

/-- Witness for C7: balance 100, withdrawal of 200 — rejected, balance
still 100, no transaction recorded. -/
theorem transfer_insufficient_balance_rejected_witness :
    paystackTransfer (fun _ _ _ => Except.ok "paid")
        (some "user7") (some 200) (some "RCP_1") "WITHDRAW-1" cPoorState =
      (TransferOutcome.badRequest "Insufficient balance", cPoorState) :=
  transfer_insufficient_balance_rejected (fun _ _ _ => Except.ok "paid")
    "user7" "RCP_1" "WITHDRAW-1" 200 100 cPoorState
    (by decide) (by decide) (by norm_num)
    (by simp [lookup, cPoorState]) (by norm_num)

/-- C10: a withdrawal request with a strictly negative amount for an
existing user with non-negative balance passes the missing-fields
validation (a negative number is truthy) and the insufficient-funds check
(`balance < amount` is false), so a successful gateway call commits
`balance - amount` — a net credit of `|amount|` — and records a
transaction with `type = debit` and `status = success`. -/
theorem transfer_negative_amount_credits
    (uid rc tid d : String) (amt b : Rat) (s : LedgerState)
    (hneg : amt < 0) (huid : uid ≠ "") (hrc : rc ≠ "")
    (hb : lookup s.users uid = some b) (hpos : 0 ≤ b) :
    paystackTransfer (fun _ _ _ => Except.ok d)
        (some uid) (some amt) (some rc) tid s =
      (TransferOutcome.okTransfer d,
       { users := setKey s.users uid (b - amt),
         transactions := setKey s.transactions tid
           { userId := uid, amount := amt, type := "debit",
             status := "success", category := "Withdrawal" } }) ∧
    b - amt = b + |amt| := by
  have hne : amt ≠ 0 := ne_of_lt hneg
  have hnl : ¬b < amt := not_lt.mpr (hneg.le.trans hpos)
  refine ⟨by simp [paystackTransfer, huid, hrc, hne, hb, hnl], ?_⟩
  rw [abs_of_neg hneg]
  ring

def cNegState : LedgerState :=
  { users := [("user10", 100)], transactions := [] }

/-- Witness for C10: balance 100, withdrawal of -50 — the gateway call
succeeds and the committed balance is 100 - (-50) = 150, a net credit. -/
theorem transfer_negative_amount_credits_witness :
    paystackTransfer (fun _ _ _ => Except.ok "moved")
        (some "user10") (some (-50)) (some "RCP_2") "WITHDRAW-2"
        cNegState =
      (TransferOutcome.okTransfer "moved",
       { users := setKey cNegState.users "user10" (100 - (-50)),
         transactions := setKey cNegState.transactions "WITHDRAW-2"
           { userId := "user10", amount := -50, type := "debit",
             status := "success", category := "Withdrawal" } }) ∧
    (100 : Rat) - (-50) = 100 + |(-50 : Rat)| :=
  transfer_negative_amount_credits "user10" "RCP_2" "WITHDRAW-2" "moved"
    (-50) 100 cNegState (by norm_num) (by decide) (by decide)
    (by simp [lookup, cNegState]) (by norm_num)

/-- C1: delivering the identical deposit webhook N ≥ 1 times sequentially
credits the balance exactly once and sets the transaction status to
`success` exactly once: after N deliveries the balance is the original
plus `amount / 100`, the transaction is `success`, and the state equals
the state after the first delivery; moreover once the record's status is
`success`, or when no record exists for the reference, a delivery mutates
nothing and still answers 200. -/
theorem webhook_idempotent
    (hmac : String → String → String)
    (parse : String → Option WebhookEvent)
    (verify : String → Except Unit VerifiedData)
    (secret rawBody sig : String) (s : LedgerState)
    (ev : WebhookEvent) (vd : VerifiedData) (txn : Txn) (b : Rat)
    (hsig : hmac secret rawBody = sig)
    (hparse : parse rawBody = some ev)
    (hevent : ev.event = "charge.success")
    (hverify : verify ev.reference = Except.ok vd)
    (hstatus : vd.status = "success")
    (htxn : lookup s.transactions ev.reference = some txn)
    (hpending : txn.status ≠ "success")
    (huser : lookup s.users txn.userId = some b)
    (N : Nat) (hN : 1 ≤ N) :
    lookup ((webhookStep hmac parse verify secret rawBody sig)^[N] s).users
        txn.userId = some (b + vd.amount / 100) ∧
    lookup ((webhookStep hmac parse verify secret rawBody sig)^[N] s).transactions
        ev.reference = some { txn with status := "success" } ∧
    (webhookStep hmac parse verify secret rawBody sig)^[N] s =
      webhookStep hmac parse verify secret rawBody sig s ∧
    (∀ st : LedgerState,
      (lookup st.transactions ev.reference = none ∨
        ∃ t2, lookup st.transactions ev.reference = some t2 ∧
          t2.status = "success") →
      paystackWebhook hmac parse verify secret rawBody sig st =
        (WebhookOutcome.ok 200 "Already processed", st)) := by
  have hcredit := paystackWebhook_credit hmac parse verify secret rawBody
    sig s ev vd txn b hsig hparse hevent hverify hstatus htxn hpending huser
  set txn2 : Txn := { txn with status := "success" } with htxn2
  set s1 : LedgerState :=
    { users := setKey s.users txn.userId (b + vd.amount / 100),
      transactions := setKey s.transactions ev.reference txn2 } with hs1
  have hstep1 : webhookStep hmac parse verify secret rawBody sig s = s1 := by
    rw [webhookStep, hcredit]
  have hs1txn : lookup s1.transactions ev.reference = some txn2 :=
    lookup_setKey_self s.transactions ev.reference txn2
  have hfix : webhookStep hmac parse verify secret rawBody sig s1 = s1 := by
    rw [webhookStep, paystackWebhook_already_done hmac parse verify secret
      rawBody sig s1 ev vd txn2 hsig hparse hevent hverify hstatus hs1txn rfl]
  obtain ⟨m, rfl⟩ : ∃ m, N = m + 1 :=
    ⟨N - 1, (Nat.succ_pred_eq_of_pos hN).symm⟩
  have hiter :
      (webhookStep hmac parse verify secret rawBody sig)^[m + 1] s = s1 := by
    rw [Function.iterate_succ_apply, hstep1, Function.iterate_fixed hfix]
  refine ⟨?_, ?_, ?_, ?_⟩
  · rw [hiter]
    exact lookup_setKey_self s.users txn.userId _
  · rw [hiter]
    exact hs1txn
  · rw [hiter, hstep1]
  · intro st hgate
    rcases hgate with hnone | ⟨t2, ht2, hs2⟩
    · exact paystackWebhook_no_record hmac parse verify secret rawBody sig
        st ev vd hsig hparse hevent hverify hstatus hnone
    · exact paystackWebhook_already_done hmac parse verify secret rawBody
        sig st ev vd t2 hsig hparse hevent hverify hstatus ht2 hs2

/-- Witness for C1: three identical deliveries of the fixture webhook
credit user1 exactly once (500 + 10000/100 = 600) and coincide with the
state after the first delivery. -/
theorem webhook_idempotent_witness :
    lookup ((webhookStep cHmac cParse cVerify "sec" "raw" "goodsig")^[3]
        cState).users "user1" = some 600 ∧
    (webhookStep cHmac cParse cVerify "sec" "raw" "goodsig")^[3] cState =
      webhookStep cHmac cParse cVerify "sec" "raw" "goodsig" cState := by
  have h := webhook_idempotent cHmac cParse cVerify "sec" "raw" "goodsig"
    cState { event := "charge.success", reference := "ref1" }
    { status := "success", amount := 10000 } cTxn 500
    rfl rfl rfl rfl rfl (by simp [lookup, cState]) (by simp [cTxn])
    (by simp [lookup, cState, cTxn]) 3 (by norm_num)
  have h1 := h.1
  norm_num [cTxn] at h1
  exact ⟨h1, h.2.2.1⟩

/-- C6: with balance 500 and a pending transaction, a verified successful
charge of 10000 minor units credits 10000/100 = 100 major units (balance
600), marks the transaction `success`, and redelivering the identical
webhook leaves the balance at 600 (the state is a fixed point). -/
theorem webhook_scenario_credit_100 :
    lookup (webhookStep cHmac cParse cVerify "sec" "raw" "goodsig"
        cState).users "user1" = some 600 ∧
    lookup (webhookStep cHmac cParse cVerify "sec" "raw" "goodsig"
        cState).transactions "ref1" =
      some { userId := "user1", amount := 100, type := "credit",
             status := "success", category := "Deposit" } ∧
    webhookStep cHmac cParse cVerify "sec" "raw" "goodsig"
        (webhookStep cHmac cParse cVerify "sec" "raw" "goodsig" cState) =
      webhookStep cHmac cParse cVerify "sec" "raw" "goodsig" cState := by
  refine ⟨?_, ?_, ?_⟩ <;>
    norm_num [webhookStep, paystackWebhook, depositCommit, lookup, setKey,
      cHmac, cParse, cVerify, cState, cTxn]

/-- C5 counterexample: in the source the idempotency check is the
`txnRef.get()` snapshot read performed before `db.runTransaction`, and
the transaction body blindly increments and sets the status without
re-reading it — a read outside followed by a write inside. Under the
interleaving in which both deliveries take their snapshot read before
either commits, both deliveries of reference `ref1` credit the balance:
starting from balance 500 with a credit of 100 major units, the final
balance is 700, not 600. -/
theorem concurrent_double_credit_counterexample :
    lookup (runSched "ref1" 100
        { shared := cState, d1 := freshTask, d2 := freshTask }
        [true, false, true, false]).shared.users "user1" = some 700 ∧
    lookup cState.users "user1" = some 500 ∧
    (700 : Rat) ≠ 500 + 100 := by
  refine ⟨?_, ?_, by norm_num⟩ <;>
    norm_num [runSched, stepPair, stepTask, depositCommit, lookup, setKey,
      cState, cTxn, freshTask]

/-- C5 (amended): the transaction-status check executes outside the
atomic store operation (a snapshot read before `runTransaction`), and the
atomic operation performs only the blind increment and status write; for
any pending transaction, the interleaving of two concurrent deliveries in
which both snapshot reads precede both commits credits the user's balance
twice: the final balance is the original plus twice the credited amount. -/
theorem concurrent_deliveries_both_credit
    (s : LedgerState) (ref : String) (txn : Txn) (b amt : Rat)
    (htxn : lookup s.transactions ref = some txn)
    (hpending : txn.status ≠ "success")
    (huser : lookup s.users txn.userId = some b) :
    lookup (runSched ref amt
        { shared := s, d1 := freshTask, d2 := freshTask }
        [true, false, true, false]).shared.users txn.userId =
      some (b + amt + amt) := by
  simp only [runSched, stepPair, stepTask, freshTask]
  norm_num [htxn, hpending, depositCommit, huser, lookup_setKey_self]

/-- Witness for the amended C5 at the fixture state: both deliveries
credit, 500 + 100 + 100. -/
theorem concurrent_deliveries_both_credit_witness :
    lookup (runSched "ref1" 100
        { shared := cState, d1 := freshTask, d2 := freshTask }
        [true, false, true, false]).shared.users "user1" =
      some (500 + 100 + 100) :=
  concurrent_deliveries_both_credit cState "ref1" cTxn 500 100
    (by simp [lookup, cState, cTxn]) (by simp [cTxn])
    (by simp [lookup, cState, cTxn])

def cVtTxn : Txn :=
  { userId := "user9", amount := 50, type := "credit",
    status := "pending", category := "Airtime" }

def cVtState : LedgerState :=
  { users := [("user9", 100)], transactions := [("req9", cVtTxn)] }

def cVtBody : VtpassBody :=
  { type := "transaction-update", requestId := "req9", code := "016" }

/-- C9 counterexample: the VTpass webhook handler — neither the deposit
reconciler nor the withdrawal orchestrator — also writes a user's
`balance` and a transaction's `status`: a `transaction-update` with
failure code `016` for a pending transaction refunds its amount to the
user's balance (100 to 150) and sets the transaction's status to
`failed`. -/
theorem vtpass_webhook_mutates_ledger_counterexample :
    lookup (vtpassWebhook cVtBody cVtState).users "user9" = some 150 ∧
    lookup cVtState.users "user9" = some 100 ∧
    lookup (vtpassWebhook cVtBody cVtState).transactions "req9" =
      some { userId := "user9", amount := 50, type := "credit",
             status := "failed", category := "Airtime" } ∧
    lookup cVtState.transactions "req9" = some cVtTxn := by
  refine ⟨?_, ?_, ?_, ?_⟩ <;>
    norm_num [vtpassWebhook, lookup, setKey, cVtBody, cVtState, cVtTxn]

/-- C9 (amended): the deposit reconciler and the withdrawal orchestrator
are not the only writers of `balance` and transaction `status`: the
VTpass webhook handler also writes both. On a `transaction-update` whose
transaction is not yet `success` and whose code is neither `000` nor
`099`, it refunds the transaction's amount to the user's balance and
marks the transaction `failed`. -/
theorem vtpass_webhook_refund_writes
    (body : VtpassBody) (s : LedgerState) (txn : Txn) (b : Rat)
    (htype : body.type = "transaction-update")
    (htxn : lookup s.transactions body.requestId = some txn)
    (hnot : txn.status ≠ "success")
    (hc0 : body.code ≠ "000") (hc99 : body.code ≠ "099")
    (hb : lookup s.users txn.userId = some b) :
    lookup (vtpassWebhook body s).users txn.userId =
      some (b + txn.amount) ∧
    lookup (vtpassWebhook body s).transactions body.requestId =
      some { txn with status := "failed" } := by
  simp [vtpassWebhook, htype, htxn, hnot, hc0, hc99, hb,
    lookup_setKey_self]

/-- Witness for the amended C9 at the fixture: balance 100 becomes 150
and the transaction becomes `failed`. -/
theorem vtpass_webhook_refund_writes_witness :
    lookup (vtpassWebhook cVtBody cVtState).users cVtTxn.userId =
      some (100 + cVtTxn.amount) ∧
    lookup (vtpassWebhook cVtBody cVtState).transactions
        cVtBody.requestId = some { cVtTxn with status := "failed" } :=
  vtpass_webhook_refund_writes cVtBody cVtState cVtTxn 100
    rfl (by simp [lookup, cVtState, cVtTxn, cVtBody]) (by simp [cVtTxn])
    (by decide) (by decide) (by simp [lookup, cVtState, cVtTxn])
